import Mathlib

/-!
Shallow embedding of the R33IS database migration scripts
(src/database/migration/migrate_data.py and step_migration.py).

Python strings are modelled as lists of characters (`Str`); SQL NULLs as
`Option`; the sqlite tables as Lean lists of row structures.  Helper
functions mirror the Python string operations the scripts use
(str.split, str.strip, int()).
-/

/-- Python strings, modelled as lists of characters. -/
abbrev Str := List Char

/-- Python str.split(sep) for a one-character separator: splits on every
occurrence and keeps empty pieces, so the result always has
(number of separators + 1) pieces. -/
def splitOnChar (sep : Char) : Str → List Str
  | [] => [[]]
  | x :: xs =>
    if x = sep then [] :: splitOnChar sep xs
    else
      match splitOnChar sep xs with
      | [] => [[x]]
      | y :: ys => (x :: y) :: ys

/-- Python str.strip(): drop leading and trailing whitespace. -/
def pyStrip (s : Str) : Str :=
  ((s.dropWhile Char.isWhitespace).reverse.dropWhile Char.isWhitespace).reverse

/-- Numeric value of a list of decimal digit characters. -/
def natOfDigits (l : Str) : Nat :=
  l.foldl (fun a c => 10 * a + (c.toNat - 48)) 0

/-- Python int(str): optional surrounding whitespace, optional sign, then a
nonempty run of decimal digits; anything else raises ValueError (`none`). -/
def pyInt (s : Str) : Option Int :=
  match pyStrip s with
  | '+' :: rest =>
    if rest ≠ [] ∧ rest.all Char.isDigit then some (natOfDigits rest) else none
  | '-' :: rest =>
    if rest ≠ [] ∧ rest.all Char.isDigit then some (-(natOfDigits rest : Int)) else none
  | t => if t ≠ [] ∧ t.all Char.isDigit then some (natOfDigits t) else none

/-- A sqlite value as it comes out of the legacy RouteNumber column:
either an integer or a text value. -/
inductive SrcVal where
  | i (n : Int)
  | s (str : Str)
deriving DecidableEq, Repr

/-- Python str() applied to a RouteNumber value. -/
def pyStr : SrcVal → Str
  | .i n => (toString n).data
  | .s str => str

/-! ## Target-schema rows (master.db) -/

/-- A row of the target routes table:
(RouteNumber, RouteInt, DriverName, PlantNumber, ServiceDay). -/
structure RouteRow where
  routeNumber : Str
  routeInt : Option Int
  driverName : Str
  plantNumber : Option Int
  serviceDay : Str
deriving DecidableEq, Repr

/-- A row of the target customers table (the fields later steps read). -/
structure Customer where
  customerNumber : Int
  routeNumber : Str
deriving DecidableEq, Repr

/-- A row of the target customer_rental_items table. -/
structure CRI where
  customerNumber : Int
  itemId : Int
  description : Str
  quantityUsed : Int
  deliveryFrequency : Str
  deliveryDay : Int
  billingFrequency : Str
deriving DecidableEq, Repr

/-- A row of the target rental_items_catalog table. -/
structure CatalogItem where
  itemId : Int
  description : Str
  standardizationScore : Int
deriving DecidableEq, Repr

/-- A row of the target route_load_summary table. -/
structure LoadRow where
  routeNumber : Str
  serviceDay : Str
  itemId : Int
  description : Str
  totalQuantity : Int
deriving DecidableEq, Repr

/-! ## Route migration (migrate_routes in step_migration.py, step 6 of
migrate_data.py) -/

/-- The f-string "Driver for Route {x}". -/
def driverFor (x : Str) : Str := "Driver for Route ".data ++ x

/-- Outcome of processing one distinct RouteNumber inside the route loop:
either a row is inserted, or an exception was raised and caught by the
per-route handler (ValueError from int(), printed and skipped). -/
inductive RouteOutcome where
  | inserted (row : RouteRow)
  | skippedError
deriving DecidableEq, Repr

/-- The row the outcome inserted, if any. -/
def RouteOutcome.insertedRow : RouteOutcome → Option RouteRow
  | .inserted row => some row
  | .skippedError => none

/-- Body of the route loop of step_migration.migrate_routes
(lines 246-291): the three-way branch on the shape of RouteNumber.
In the composite branch Python evaluates int(route_int) and
int(plant_number); a ValueError from either is caught by the per-route
handler, so no row is inserted for that route. -/
def processRouteStep (v : SrcVal) (serviceDay : Str) : RouteOutcome :=
  match v with
  | .s str =>
    if '-' ∈ str then
      match splitOnChar '-' str with
      | [plantNumber, routeInt] =>
        match pyInt routeInt, pyInt plantNumber with
        | some ri, some pn =>
          .inserted ⟨str, some ri, driverFor routeInt, some pn, serviceDay⟩
        | _, _ => .skippedError
      | _ => .inserted ⟨str, none, driverFor str, none, serviceDay⟩
    else
      match pyInt str with
      | some n => .inserted ⟨str, some n, driverFor str, none, serviceDay⟩
      | none => .inserted ⟨str, none, driverFor str, none, serviceDay⟩
  | .i n => .inserted ⟨pyStr (.i n), some n, driverFor (pyStr (.i n)), none, serviceDay⟩

/-- Body of the route loop of migrate_data.py (lines 225-268).  Identical
to processRouteStep except in the non-composite branch, which tests
isinstance(int) or str.isdigit() instead of trying int(). -/
def processRouteData (v : SrcVal) (serviceDay : Str) : RouteOutcome :=
  match v with
  | .s str =>
    if '-' ∈ str then
      match splitOnChar '-' str with
      | [plantNumber, routeInt] =>
        match pyInt routeInt, pyInt plantNumber with
        | some ri, some pn =>
          .inserted ⟨str, some ri, driverFor routeInt, some pn, serviceDay⟩
        | _, _ => .skippedError
      | _ => .inserted ⟨str, none, driverFor str, none, serviceDay⟩
    else
      if str ≠ [] ∧ str.all Char.isDigit then
        .inserted ⟨str, some (natOfDigits str), driverFor str, none, serviceDay⟩
      else
        .inserted ⟨str, none, driverFor str, none, serviceDay⟩
  | .i n => .inserted ⟨pyStr (.i n), some n, driverFor (pyStr (.i n)), none, serviceDay⟩

/-! ## Service day derivation (day_map lookup) -/

/-- day_map.get(first_day, 'Monday'): the dict literal of the scripts. -/
def dayMapGet (k : Str) : Str :=
  if k = "M".data then "Monday".data
  else if k = "T".data then "Tuesday".data
  else if k = "W".data then "Wednesday".data
  else if k = "Th".data then "Thursday".data
  else if k = "F".data then "Friday".data
  else "Monday".data

/-- service_day computation from a fetched ServiceDays value: default
'Monday'; when the value is non-NULL and non-empty, take the first
comma-separated token, strip it, and look it up in day_map. -/
def computeServiceDay (serviceDays : Option Str) : Str :=
  match serviceDays with
  | none => "Monday".data
  | some s =>
    if s = [] then "Monday".data
    else
      match splitOnChar ',' s with
      | firstDay :: _ => dayMapGet (pyStrip firstDay)
      | [] => "Monday".data

/-- A row of the legacy routes.db routes table (the two columns the route
step reads: RouteNumber and ServiceDays, the latter nullable). -/
structure LegacyRouteRow where
  routeNumber : SrcVal
  serviceDays : Option Str
deriving DecidableEq, Repr

/-- SELECT DISTINCT RouteNumber FROM routes (the ORDER BY only fixes the
processing order of independent iterations and is not modelled). -/
def uniqueRoutes (src : List LegacyRouteRow) : List SrcVal :=
  (src.map (·.routeNumber)).dedup

/-- SELECT ServiceDays FROM routes WHERE RouteNumber = ? LIMIT 1 followed
by the default/lookup logic of the loop. -/
def serviceDayFor (src : List LegacyRouteRow) (v : SrcVal) : Str :=
  match src.find? (fun row => decide (row.routeNumber = v)) with
  | none => "Monday".data
  | some row => computeServiceDay row.serviceDays

/-- step_migration.migrate_routes: the list of routes rows the step
inserts (each insert is committed; a per-route exception skips the
route and the loop continues). -/
def migrate_routes (src : List LegacyRouteRow) : List RouteRow :=
  (uniqueRoutes src).filterMap fun v =>
    (processRouteStep v (serviceDayFor src v)).insertedRow

/-- Section 6 of migrate_data.py: same loop with processRouteData. -/
def routesMigrationData (src : List LegacyRouteRow) : List RouteRow :=
  (uniqueRoutes src).filterMap fun v =>
    (processRouteData v (serviceDayFor src v)).insertedRow

/-! ## Category migration: per-row loop vs executemany -/

/-- A row of the categories table: (id, name, description); id is the
primary key, so a duplicate id raises IntegrityError. -/
structure Category where
  id : Int
  name : Str
  descr : Str
deriving DecidableEq, Repr

/-- step_migration.migrate_categories (lines 44-53): per-row INSERT with
commit; an IntegrityError is caught and the loop continues.  Returns the
final table together with the observable counts of the run: successful
inserts and caught IntegrityErrors. -/
def migrate_categories (tbl : List Category) :
    List Category → List Category × Nat × Nat
  | [] => (tbl, 0, 0)
  | c :: rest =>
    if (tbl.map (·.id)).contains c.id then
      let r := migrate_categories tbl rest
      (r.1, r.2.1, r.2.2 + 1)
    else
      let r := migrate_categories (tbl ++ [c]) rest
      (r.1, r.2.1 + 1, r.2.2)

/-- executemany semantics of migrate_data.py lines 65-68: rows are
executed in order inside the open transaction; the first IntegrityError
propagates out of executemany with the remaining rows unattempted. -/
def executemanyCategories (tbl : List Category) :
    List Category → Except Category (List Category)
  | [] => .ok tbl
  | c :: rest =>
    if (tbl.map (·.id)).contains c.id then .error c
    else executemanyCategories (tbl ++ [c]) rest

/-- The category step of migrate_data.py as observed after the outer
try/except: an exception triggers conn.rollback(), so the table reverts
to its pre-transaction state and the run reports failure (no per-row
failure count exists on this path). -/
def categoriesMigrationData (tbl : List Category) (cats : List Category) :
    List Category × Bool :=
  match executemanyCategories tbl cats with
  | .ok t => (t, true)
  | .error _ => (tbl, false)

/-! ## Customer rental items (migrate_customer_rental_items, step 5 of
migrate_data.py) -/

/-- A row of the legacy items.db items table (the columns the step
reads). -/
structure SourceItem where
  itemId : Int
  description : Str
  customerNum : Int
  quantityUsed : Int
  route : Option Int
deriving DecidableEq, Repr

/-- delivery_day = (route % 5) + 1 if route else 1.  Python truthiness:
None and 0 are falsy, so both give the default 1; Python % on a positive
modulus agrees with Int.emod. -/
def deliveryDayOf (route : Option Int) : Int :=
  match route with
  | some r => if r ≠ 0 then r.emod 5 + 1 else 1
  | none => 1

/-- The customer_rental_items row built for one legacy item record. -/
def buildCRI (item : SourceItem) : CRI :=
  { customerNumber := item.customerNum
    itemId := item.itemId
    description := item.description
    quantityUsed := item.quantityUsed
    deliveryFrequency := "Weekly".data
    deliveryDay := deliveryDayOf item.route
    billingFrequency := "Monthly".data }

/-- One INSERT INTO customer_rental_items under sqlite foreign-key
semantics: when foreign-key enforcement is on and the row's
CustomerNumber matches no customers row, the insert raises
IntegrityError (none); otherwise the row is appended. -/
def insertCRIrow (fkEnabled : Bool) (customers : List Customer)
    (tbl : List CRI) (row : CRI) : Option (List CRI) :=
  if fkEnabled ∧
      ¬ (customers.any fun c => decide (c.customerNumber = row.customerNumber)) then
    none
  else
    some (tbl ++ [row])

/-- The rental-item insert loop (step_migration lines 186-207,
migrate_data lines 167-191): per-row insert, IntegrityError caught and
counted, loop continues.  Both scripts run it after
PRAGMA foreign_keys = OFF, i.e. with fkEnabled = false. -/
def migrate_customer_rental_items (fkEnabled : Bool) (customers : List Customer)
    (tbl : List CRI) : List SourceItem → List CRI × Nat × Nat
  | [] => (tbl, 0, 0)
  | item :: rest =>
    match insertCRIrow fkEnabled customers tbl (buildCRI item) with
    | some tbl2 =>
      let r := migrate_customer_rental_items fkEnabled customers tbl2 rest
      (r.1, r.2.1 + 1, r.2.2)
    | none =>
      let r := migrate_customer_rental_items fkEnabled customers tbl rest
      (r.1, r.2.1, r.2.2 + 1)

/-- Number of distinct values in a list (COUNT(DISTINCT ...)). -/
def distinctCount (l : List Int) : Nat := l.dedup.length

/-! ## Standardization scores -/

/-- step_migration.update_standardization_scores (lines 399-406): for
every catalog row, COUNT(DISTINCT CustomerNumber) over
customer_rental_items rows with r.item_id = rental_items_catalog.item_id. -/
def update_standardization_scores (catalog : List CatalogItem)
    (cris : List CRI) : List CatalogItem :=
  catalog.map fun item =>
    { item with
        standardizationScore :=
          distinctCount
            ((cris.filter fun r => decide (r.itemId = item.itemId)).map
              (·.customerNumber)) }

/-- The same UPDATE in migrate_data.py (lines 320-327), which matches on
r.description = rental_items_catalog.description instead of item_id. -/
def scoresUpdateData (catalog : List CatalogItem) (cris : List CRI) :
    List CatalogItem :=
  catalog.map fun item =>
    { item with
        standardizationScore :=
          distinctCount
            ((cris.filter fun r => decide (r.description = item.description)).map
              (·.customerNumber)) }

/-! ## Route load summary (calculate_route_loads, step 7 of
migrate_data.py) -/

/-- The mutable target state the summary step touches. -/
structure MasterState where
  customers : List Customer
  routes : List RouteRow
  customerRentalItems : List CRI
  routeLoadSummary : List LoadRow
deriving DecidableEq, Repr

/-- The join partners of one customer_rental_items row: the customers
rows with its CustomerNumber, each paired with the routes rows with that
customer's RouteNumber. -/
def criMatch (s : MasterState) (cri : CRI) : List (CRI × Customer × RouteRow) :=
  (s.customers.filter fun c =>
      decide (c.customerNumber = cri.customerNumber)).flatMap fun c =>
    (s.routes.filter fun r =>
        decide (r.routeNumber = c.routeNumber)).map fun r => (cri, c, r)

/-- The FROM/JOIN clause: customer_rental_items JOIN customers ON
CustomerNumber JOIN routes ON RouteNumber. -/
def joinRows (s : MasterState) : List (CRI × Customer × RouteRow) :=
  s.customerRentalItems.flatMap (criMatch s)

/-- The GROUP BY key (c.RouteNumber, r.ServiceDay, cri.item_id). -/
def keyOf (t : CRI × Customer × RouteRow) : Str × Str × Int :=
  (t.2.1.routeNumber, t.2.2.serviceDay, t.1.itemId)

/-- The distinct group keys of the join. -/
def groupKeys (s : MasterState) : List (Str × Str × Int) :=
  ((joinRows s).map keyOf).dedup

/-- The SELECT ... GROUP BY: one output row per group key, summing
quantity_used; the ungrouped description column is taken from a row of
the group. -/
def routeLoadQuery (s : MasterState) : List LoadRow :=
  (groupKeys s).map fun k =>
    { routeNumber := k.1
      serviceDay := k.2.1
      itemId := k.2.2
      description :=
        match (joinRows s).filter fun t => decide (keyOf t = k) with
        | t :: _ => t.1.description
        | [] => []
      totalQuantity :=
        (((joinRows s).filter fun t => decide (keyOf t = k)).map
          fun t => t.1.quantityUsed).sum }

/-- step_migration.calculate_route_loads (lines 305-345): guard on the
three COUNT(*) checks, then INSERT INTO route_load_summary ... SELECT
(an append: the step never clears route_load_summary first).  Returns
the new state and the Python return value. -/
def calculate_route_loads (s : MasterState) : MasterState × Bool :=
  if s.customerRentalItems.length = 0 ∨ s.customers.length = 0 ∨
      s.routes.length = 0 then
    (s, false)
  else
    ({ s with routeLoadSummary := s.routeLoadSummary ++ routeLoadQuery s }, true)

/-- How the step driver of step_migration.py (lines 475-489) reports one
step: the operator skips it, or it runs and its boolean result is
reported as completed or failed. -/
inductive StepReport where
  | completed
  | failed
  | skipped
deriving DecidableEq, Repr

/-- Report for a step the operator chose to run ('y') or not ('n'). -/
def reportStep (ranChoice : Bool) (result : Bool) : StepReport :=
  if ranChoice then (if result then .completed else .failed) else .skipped

/-- The key columns of a summary row. -/
def loadKey (row : LoadRow) : Str × Str × Int :=
  (row.routeNumber, row.serviceDay, row.itemId)

/-- The join key a single rental row reaches through the (unique)
customer with its CustomerNumber and that customer's (unique) route:
the group the row belongs to. -/
def criKey (s : MasterState) (cri : CRI) : Option (Str × Str × Int) :=
  match s.customers.find? (fun c => decide (c.customerNumber = cri.customerNumber)) with
  | none => none
  | some c =>
    match s.routes.find? (fun r => decide (r.routeNumber = c.routeNumber)) with
    | none => none
    | some r => some (c.routeNumber, r.serviceDay, cri.itemId)

/-- The claim-side group sum: total quantityUsed over the rental rows
belonging to group k. -/
def groupSumSpec (s : MasterState) (k : Str × Str × Int) : Int :=
  ((s.customerRentalItems.filter fun cri => decide (criKey s cri = some k)).map
    (·.quantityUsed)).sum

/-- Clearing the summary table (the hypothesis of the idempotence
claim). -/
def clearSummary (s : MasterState) : MasterState :=
  { s with routeLoadSummary := [] }

/-- The five values of day_map together with the default. -/
def weekdayNames : List Str :=
  ["Monday".data, "Tuesday".data, "Wednesday".data, "Thursday".data,
   "Friday".data]

/-! ## Concrete inputs used by witnesses and counterexamples -/

/-- A one-row legacy routes table with a composite route id. -/
def srcDemo : List LegacyRouteRow := [⟨.s "2502-33".data, some "M".data⟩]

/-- Two category rows sharing the primary-key id 1. -/
def catA : Category := ⟨1, "Linens".data, "General".data⟩

/-- A second category row with the same id as catA. -/
def catB : Category := ⟨1, "Towels".data, "General".data⟩

/-- A legacy rental record whose customer number matches no customer. -/
def danglingItem : SourceItem := ⟨99, "Mat".data, 999, 3, some 5⟩

/-- Two catalog rows with distinct itemIds but the same description. -/
def catalogPair : List CatalogItem :=
  [⟨1, "Mat".data, 0⟩, ⟨2, "Mat".data, 0⟩]

/-- One rental row for customer 101 with itemId 1. -/
def rentalMat : CRI :=
  ⟨101, 1, "Mat".data, 3, "Weekly".data, 1, "Monthly".data⟩

/-- A routes row for route number "33". -/
def demoRoute : RouteRow :=
  ⟨"33".data, some 33, driverFor "33".data, none, "Monday".data⟩

/-- One rental row for customer 101 with itemId 7 and quantity 3. -/
def demoCri : CRI :=
  ⟨101, 7, "Mat".data, 3, "Weekly".data, 1, "Monthly".data⟩

/-- A populated master state: one customer on route "33", that route,
one rental row, empty summary. -/
def demoState : MasterState :=
  ⟨[⟨101, "33".data⟩], [demoRoute], [demoCri], []⟩

/-- The single summary row the join of demoState produces. -/
def demoLoadRow : LoadRow :=
  ⟨"33".data, "Monday".data, 7, "Mat".data, 3⟩

/-- A master state with customers and routes but no rental rows. -/
def noItemsState : MasterState :=
  ⟨[⟨101, "33".data⟩], [demoRoute], [], []⟩

/-! ## Helper lemmas -/

lemma ws_false_of_digit (c : Char) (h : c.isDigit = true) :
    c.isWhitespace = false := by
  simp [Char.isDigit] at h
  simp [Char.isWhitespace]
  refine ⟨⟨⟨?_, ?_⟩, ?_⟩, ?_⟩ <;> rintro rfl <;> exact absurd h (by decide)

lemma ne_plus_of_digit (c : Char) (h : c.isDigit = true) : c ≠ '+' := by
  rintro rfl
  simp [Char.isDigit] at h

lemma ne_minus_of_digit (c : Char) (h : c.isDigit = true) : c ≠ '-' := by
  rintro rfl
  simp [Char.isDigit] at h

lemma dropWhile_ws_of_digits (l : Str) (h : l.all Char.isDigit = true) :
    l.dropWhile Char.isWhitespace = l := by
  cases l with
  | nil => rfl
  | cons c cs =>
    have hc : c.isDigit = true := by
      simp [List.all_cons] at h
      exact h.1
    simp [List.dropWhile, ws_false_of_digit c hc]

lemma pyStrip_of_digits (l : Str) (h : l.all Char.isDigit = true) :
    pyStrip l = l := by
  unfold pyStrip
  rw [dropWhile_ws_of_digits l h]
  rw [dropWhile_ws_of_digits l.reverse (by simpa using h)]
  exact List.reverse_reverse l

lemma pyInt_of_digits (l : Str) (h1 : l ≠ []) (h2 : l.all Char.isDigit = true) :
    pyInt l = some ((natOfDigits l : Int)) := by
  unfold pyInt
  rw [pyStrip_of_digits l h2]
  cases l with
  | nil => exact absurd rfl h1
  | cons c cs =>
    have hc : c.isDigit = true := by
      simp [List.all_cons] at h2
      exact h2.1
    split
    · rename_i heq
      injection heq with h3 _
      exact absurd h3 (ne_plus_of_digit c hc)
    · rename_i heq
      injection heq with h3 _
      exact absurd h3 (ne_minus_of_digit c hc)
    · simp [h2]

lemma splitOnChar_of_not_mem (sep : Char) (l : Str) (h : sep ∉ l) :
    splitOnChar sep l = [l] := by
  induction l with
  | nil => rfl
  | cons x xs ih =>
    have hx : x ≠ sep := fun hxe => h (hxe ▸ List.mem_cons_self x xs)
    have hxs : sep ∉ xs := fun hm => h (List.mem_cons_of_mem x hm)
    simp [splitOnChar, hx, ih hxs]

lemma mem_of_splitOnChar_pair (sep : Char) (l p r : Str)
    (h : splitOnChar sep l = [p, r]) : sep ∈ l := by
  by_contra hn
  rw [splitOnChar_of_not_mem sep l hn] at h
  exact absurd (congrArg List.length h) (by simp)

lemma dayMapGet_mem (k : Str) : dayMapGet k ∈ weekdayNames := by
  unfold dayMapGet weekdayNames
  split_ifs <;> simp

lemma computeServiceDay_mem (sd : Option Str) :
    computeServiceDay sd ∈ weekdayNames := by
  unfold computeServiceDay
  split
  · simp [weekdayNames]
  · split_ifs
    · simp [weekdayNames]
    · split
      · exact dayMapGet_mem _
      · simp [weekdayNames]

lemma serviceDayFor_mem (src : List LegacyRouteRow) (v : SrcVal) :
    serviceDayFor src v ∈ weekdayNames := by
  unfold serviceDayFor
  split
  · simp [weekdayNames]
  · exact computeServiceDay_mem _

lemma processRouteStep_serviceDay (v : SrcVal) (sd : Str) (row : RouteRow)
    (h : (processRouteStep v sd).insertedRow = some row) :
    row.serviceDay = sd := by
  cases v with
  | i n =>
    simp only [processRouteStep, RouteOutcome.insertedRow, Option.some.injEq] at h
    rw [← h]
  | s str =>
    simp only [processRouteStep] at h
    split at h
    · split at h
      · split at h
        · simp only [RouteOutcome.insertedRow, Option.some.injEq] at h
          rw [← h]
        · simp [RouteOutcome.insertedRow] at h
      · simp only [RouteOutcome.insertedRow, Option.some.injEq] at h
        rw [← h]
    · split at h <;>
        simp only [RouteOutcome.insertedRow, Option.some.injEq] at h <;> rw [← h]

lemma processRouteData_serviceDay (v : SrcVal) (sd : Str) (row : RouteRow)
    (h : (processRouteData v sd).insertedRow = some row) :
    row.serviceDay = sd := by
  cases v with
  | i n =>
    simp only [processRouteData, RouteOutcome.insertedRow, Option.some.injEq] at h
    rw [← h]
  | s str =>
    simp only [processRouteData] at h
    split at h
    · split at h
      · split at h
        · simp only [RouteOutcome.insertedRow, Option.some.injEq] at h
          rw [← h]
        · simp [RouteOutcome.insertedRow] at h
      · simp only [RouteOutcome.insertedRow, Option.some.injEq] at h
        rw [← h]
    · split at h <;>
        simp only [RouteOutcome.insertedRow, Option.some.injEq] at h <;> rw [← h]

lemma migrate_categories_counts (cats : List Category) :
    ∀ tbl, (migrate_categories tbl cats).2.1 + (migrate_categories tbl cats).2.2 =
      cats.length := by
  induction cats with
  | nil => intro tbl; rfl
  | cons c rest ih =>
    intro tbl
    simp only [migrate_categories, List.length_cons]
    by_cases hc : (tbl.map (·.id)).contains c.id = true
    · rw [if_pos hc]
      dsimp only
      have := ih tbl
      omega
    · rw [if_neg hc]
      dsimp only
      have := ih (tbl ++ [c])
      omega

lemma migrate_categories_table_len (cats : List Category) :
    ∀ tbl, (migrate_categories tbl cats).1.length =
      tbl.length + (migrate_categories tbl cats).2.1 := by
  induction cats with
  | nil => intro tbl; simp [migrate_categories]
  | cons c rest ih =>
    intro tbl
    simp only [migrate_categories]
    by_cases hc : (tbl.map (·.id)).contains c.id = true
    · rw [if_pos hc]
      dsimp only
      exact ih tbl
    · rw [if_neg hc]
      dsimp only
      have := ih (tbl ++ [c])
      simp only [List.length_append, List.length_cons, List.length_nil] at this ⊢
      omega

lemma filter_eq_find_toList {α β : Type} [DecidableEq β] (f : α → β) (b : β) :
    ∀ l : List α, (l.map f).Nodup →
      l.filter (fun a => decide (f a = b)) =
        (l.find? fun a => decide (f a = b)).toList := by
  intro l
  induction l with
  | nil => intro h; rfl
  | cons a t ih =>
    intro hnd
    simp only [List.map_cons, List.nodup_cons] at hnd
    by_cases hab : f a = b
    · have ht : t.filter (fun x => decide (f x = b)) = [] := by
        rw [List.filter_eq_nil_iff]
        intro x hx
        simp only [decide_eq_true_eq]
        intro hfx
        exact hnd.1 (by
          rw [hab, ← hfx] at hnd ⊢
          exact List.mem_map_of_mem f hx)
      rw [List.filter_cons, List.find?_cons_of_pos t (by simpa using hab)]
      simp [hab, ht]
    · rw [List.filter_cons, List.find?_cons_of_neg t (by simpa using hab)]
      simp only [decide_eq_true_eq, hab, if_false]
      exact ih hnd.2

lemma criMatch_eq (s : MasterState) (cri : CRI)
    (hc : (s.customers.map (·.customerNumber)).Nodup)
    (hr : (s.routes.map (·.routeNumber)).Nodup) :
    criMatch s cri =
      ((s.customers.find? fun c =>
          decide (c.customerNumber = cri.customerNumber)).bind fun c =>
        (s.routes.find? fun r =>
            decide (r.routeNumber = c.routeNumber)).map fun r =>
          (cri, c, r)).toList := by
  unfold criMatch
  rw [filter_eq_find_toList (·.customerNumber) cri.customerNumber s.customers hc]
  cases hfc : s.customers.find? fun c => decide (c.customerNumber = cri.customerNumber) with
  | none => rfl
  | some c =>
    simp only [Option.toList, List.flatMap_cons, List.flatMap_nil, List.append_nil,
      Option.bind]
    rw [filter_eq_find_toList (·.routeNumber) c.routeNumber s.routes hr]
    cases hfr : s.routes.find? fun r => decide (r.routeNumber = c.routeNumber) with
    | none => rfl
    | some r => rfl

lemma criMatch_contribution (s : MasterState)
    (hc : (s.customers.map (·.customerNumber)).Nodup)
    (hr : (s.routes.map (·.routeNumber)).Nodup)
    (cri : CRI) (k : Str × Str × Int) :
    (((criMatch s cri).filter fun t => decide (keyOf t = k)).map
      fun t => t.1.quantityUsed).sum =
    if criKey s cri = some k then cri.quantityUsed else 0 := by
  rw [criMatch_eq s cri hc hr]
  unfold criKey
  cases hfc : s.customers.find? fun c =>
      decide (c.customerNumber = cri.customerNumber) with
  | none => simp
  | some c =>
    simp only [Option.bind_eq_bind, Option.some_bind]
    have key : ∀ fr : Option RouteRow,
        (((Option.map (fun r => (cri, c, r)) fr).toList.filter fun t =>
            decide (keyOf t = k)).map fun t => t.1.quantityUsed).sum =
          if (match fr with
              | none => none
              | some r => some (c.routeNumber, r.serviceDay, cri.itemId)) =
              some k then
            cri.quantityUsed
          else 0 := by
      intro fr
      cases fr with
      | none => simp
      | some r =>
        simp only [Option.map_some, Option.toList_some, List.filter_cons,
          List.filter_nil, keyOf]
        by_cases hk : (c.routeNumber, r.serviceDay, cri.itemId) = k
        · simp [hk]
        · simp [hk]
    exact key _

lemma join_filter_sum (s : MasterState)
    (hc : (s.customers.map (·.customerNumber)).Nodup)
    (hr : (s.routes.map (·.routeNumber)).Nodup)
    (k : Str × Str × Int) :
    ∀ cris : List CRI,
      (((cris.flatMap (criMatch s)).filter fun t => decide (keyOf t = k)).map
        fun t => t.1.quantityUsed).sum =
      ((cris.filter fun cri => decide (criKey s cri = some k)).map
        fun cri => cri.quantityUsed).sum := by
  intro cris
  induction cris with
  | nil => rfl
  | cons cri rest ih =>
    rw [List.flatMap_cons, List.filter_append, List.map_append, List.sum_append,
      ih, List.filter_cons, criMatch_contribution s hc hr cri k]
    by_cases hk : criKey s cri = some k
    · simp [hk]
    · simp [hk]

lemma joinRows_empty_of_base_empty (s : MasterState)
    (h : s.customerRentalItems.length = 0 ∨ s.customers.length = 0 ∨
      s.routes.length = 0) :
    joinRows s = [] := by
  rcases h with h | h | h <;> rw [List.length_eq_zero] at h <;>
    unfold joinRows criMatch <;> rw [h] <;> simp

lemma loadKey_routeLoadQuery (s : MasterState) :
    (routeLoadQuery s).map loadKey = groupKeys s := by
  unfold routeLoadQuery
  rw [List.map_map]
  have hpt : ∀ k ∈ groupKeys s,
      (loadKey ∘ fun k : Str × Str × Int =>
        ({ routeNumber := k.1, serviceDay := k.2.1, itemId := k.2.2,
           description :=
             match (joinRows s).filter fun t => decide (keyOf t = k) with
             | t :: _ => t.1.description
             | [] => []
           totalQuantity :=
             (((joinRows s).filter fun t => decide (keyOf t = k)).map
               fun t => t.1.quantityUsed).sum } : LoadRow)) k = id k := by
    intro k hk
    obtain ⟨a, b, c⟩ := k
    rfl
  rw [List.map_congr_left hpt, List.map_id]

lemma calc_route_loads_pos (s : MasterState)
    (h : ¬ (s.customerRentalItems.length = 0 ∨ s.customers.length = 0 ∨
      s.routes.length = 0)) :
    calculate_route_loads s =
      ({ s with routeLoadSummary := s.routeLoadSummary ++ routeLoadQuery s },
        true) := by
  unfold calculate_route_loads
  rw [if_neg h]

lemma calc_route_loads_neg (s : MasterState)
    (h : s.customerRentalItems.length = 0 ∨ s.customers.length = 0 ∨
      s.routes.length = 0) :
    calculate_route_loads s = (s, false) := by
  unfold calculate_route_loads
  rw [if_pos h]

/-! ## Claim theorems -/

/-- C9: every migrated legacy rental record yields a customer_rental_items
row with deliveryDay = (route mod 5) + 1 when the legacy route is present
(for route = 0 the code's truthiness default also gives (0 mod 5) + 1 = 1)
and 1 when it is absent, and with the constants "Weekly" and "Monthly" as
delivery and billing frequency. -/
theorem rentalItemDerivedFields (item : SourceItem) :
    (buildCRI item).deliveryDay =
      (match item.route with
       | some r => r.emod 5 + 1
       | none => 1) ∧
    (buildCRI item).deliveryFrequency = "Weekly".data ∧
    (buildCRI item).billingFrequency = "Monthly".data := by
  refine ⟨?_, rfl, rfl⟩
  show deliveryDayOf item.route = _
  cases hri : item.route with
  | none => rfl
  | some r =>
    unfold deliveryDayOf
    dsimp only
    by_cases h0 : r = 0
    · subst h0
      norm_num
    · rw [if_pos h0]

/-- C8: the claim says referential integrity on
customer_rental_items.CustomerNumber is enforced at write time; but both
scripts execute PRAGMA foreign_keys = OFF (under a comment saying
"Enable foreign keys"), so a rental row whose customer number matches no
customers row is stored successfully with zero failures.  Had the pragma
been ON as the comment intends, the same insert would be rejected as a
row-level failure. -/
theorem foreignKeysOffStoresDangling :
    migrate_customer_rental_items false [] [] [danglingItem] =
      ([buildCRI danglingItem], 1, 0) ∧
    migrate_customer_rental_items true [] [] [danglingItem] =
      ([], 0, 1) := by
  constructor <;> rfl

/-- C4: on a catalog with two itemIds sharing one description and a single
rental row for itemId 1, the stepwise recompute (match by item_id) gives
scores 1 and 0 as the claim requires, while the atomic script's UPDATE
(match by description) gives 1 and 1, diverging from the claim. -/
theorem standardizationScoreDivergence :
    update_standardization_scores catalogPair [rentalMat] =
      [⟨1, "Mat".data, 1⟩, ⟨2, "Mat".data, 0⟩] ∧
    scoresUpdateData catalogPair [rentalMat] =
      [⟨1, "Mat".data, 1⟩, ⟨2, "Mat".data, 1⟩] := by
  constructor <;> rfl

/-- C3 counterexample: in the atomic script categories are inserted with
one executemany inside the open transaction, so a batch of two rows in
which exactly the second violates the uniqueness constraint on id ends
with the exception propagating and the rollback leaving zero rows, not
one success and one counted failure. -/
theorem executemanyBatchAborts :
    categoriesMigrationData [] [catA, catB] = ([], false) := by
  rfl

/-- C3 amended: in the per-row insert loop (stepwise mode), a batch in
which exactly one row hits an IntegrityError yields N-1 successful
inserts, and the table grows by exactly N-1 rows. -/
theorem stepwiseRowIsolation (tbl : List Category) (cats : List Category)
    (h : (migrate_categories tbl cats).2.2 = 1) :
    (migrate_categories tbl cats).2.1 = cats.length - 1 ∧
    (migrate_categories tbl cats).1.length = tbl.length + (cats.length - 1) := by
  have h1 := migrate_categories_counts cats tbl
  have h2 := migrate_categories_table_len cats tbl
  omega

theorem stepwiseRowIsolation_w :
    (migrate_categories [] [catA, catB]).2.2 = 1 ∧
    ((migrate_categories [] [catA, catB]).2.1 = [catA, catB].length - 1 ∧
      (migrate_categories [] [catA, catB]).1.length =
        ([] : List Category).length + ([catA, catB].length - 1)) :=
  ⟨by decide, stepwiseRowIsolation [] [catA, catB] (by decide)⟩

/-- C1: for every source route identifier that splits on '-' into exactly
two nonempty all-digit parts, the route-migration step (in both scripts)
inserts a routes row with RouteNumber the original string, RouteInt the
integer value of the second part and PlantNumber the integer value of
the first part. -/
theorem compositeRouteInserted (src : List LegacyRouteRow) (v p r : Str)
    (hv : SrcVal.s v ∈ src.map (·.routeNumber))
    (hsplit : splitOnChar '-' v = [p, r])
    (hp1 : p ≠ []) (hp2 : p.all Char.isDigit = true)
    (hr1 : r ≠ []) (hr2 : r.all Char.isDigit = true) :
    (⟨v, some (natOfDigits r), driverFor r, some (natOfDigits p),
        serviceDayFor src (SrcVal.s v)⟩ : RouteRow) ∈ migrate_routes src ∧
    (⟨v, some (natOfDigits r), driverFor r, some (natOfDigits p),
        serviceDayFor src (SrcVal.s v)⟩ : RouteRow) ∈
      routesMigrationData src := by
  have hm : '-' ∈ v := mem_of_splitOnChar_pair '-' v p r hsplit
  have hmem : SrcVal.s v ∈ uniqueRoutes src := List.mem_dedup.mpr hv
  have hstep :
      processRouteStep (SrcVal.s v) (serviceDayFor src (SrcVal.s v)) =
        .inserted ⟨v, some (natOfDigits r), driverFor r, some (natOfDigits p),
          serviceDayFor src (SrcVal.s v)⟩ := by
    simp only [processRouteStep]
    rw [if_pos hm, hsplit]
    dsimp only
    rw [pyInt_of_digits r hr1 hr2, pyInt_of_digits p hp1 hp2]
  have hdata :
      processRouteData (SrcVal.s v) (serviceDayFor src (SrcVal.s v)) =
        .inserted ⟨v, some (natOfDigits r), driverFor r, some (natOfDigits p),
          serviceDayFor src (SrcVal.s v)⟩ := by
    simp only [processRouteData]
    rw [if_pos hm, hsplit]
    dsimp only
    rw [pyInt_of_digits r hr1 hr2, pyInt_of_digits p hp1 hp2]
  constructor
  · refine List.mem_filterMap.mpr ⟨SrcVal.s v, hmem, ?_⟩
    rw [hstep]
    rfl
  · refine List.mem_filterMap.mpr ⟨SrcVal.s v, hmem, ?_⟩
    rw [hdata]
    rfl

theorem compositeRouteInserted_w :
    (⟨"2502-33".data, some (natOfDigits "33".data), driverFor "33".data,
        some (natOfDigits "2502".data),
        serviceDayFor srcDemo (SrcVal.s "2502-33".data)⟩ : RouteRow) ∈
      migrate_routes srcDemo :=
  (compositeRouteInserted srcDemo "2502-33".data "2502".data "33".data
    (by decide) (by decide) (by decide) (by decide) (by decide) (by decide)).1

/-- C2 counterexample: for the identifier "ab-cd" — a two-part composite
with non-numeric tokens — the claim requires a fallback routes row with
RouteNumber "ab-cd" and NULL RouteInt/PlantNumber; both scripts instead
raise ValueError at int("cd"), the per-route handler swallows it, and no
row at all is inserted for that identifier. -/
theorem nonNumericCompositeSkipped :
    migrate_routes [⟨SrcVal.s "ab-cd".data, none⟩] = [] ∧
    routesMigrationData [⟨SrcVal.s "ab-cd".data, none⟩] = [] := by
  constructor <;> rfl

/-- C2 amended: a malformed composite (splitting on '-' into a number of
parts other than two) does fall back to a row with RouteNumber the
original string and NULL RouteInt/PlantNumber, in both scripts; but a
two-part composite with a non-numeric token is skipped with no row
inserted (the caught exception only skips that identifier — processing
is a total function of the identifier, so the run is not aborted). -/
theorem malformedRouteFallback :
    (∀ (src : List LegacyRouteRow) (v : Str),
      SrcVal.s v ∈ src.map (·.routeNumber) → '-' ∈ v →
      (splitOnChar '-' v).length ≠ 2 →
      ((⟨v, none, driverFor v, none,
          serviceDayFor src (SrcVal.s v)⟩ : RouteRow) ∈ migrate_routes src ∧
        (⟨v, none, driverFor v, none,
          serviceDayFor src (SrcVal.s v)⟩ : RouteRow) ∈
          routesMigrationData src)) ∧
    (∀ (v p r sd : Str), splitOnChar '-' v = [p, r] →
      pyInt p = none ∨ pyInt r = none →
      processRouteStep (SrcVal.s v) sd = .skippedError ∧
      processRouteData (SrcVal.s v) sd = .skippedError) := by
  constructor
  · intro src v hv hm hlen
    have hmem : SrcVal.s v ∈ uniqueRoutes src := List.mem_dedup.mpr hv
    have hboth :
        processRouteStep (SrcVal.s v) (serviceDayFor src (SrcVal.s v)) =
          .inserted ⟨v, none, driverFor v, none,
            serviceDayFor src (SrcVal.s v)⟩ ∧
        processRouteData (SrcVal.s v) (serviceDayFor src (SrcVal.s v)) =
          .inserted ⟨v, none, driverFor v, none,
            serviceDayFor src (SrcVal.s v)⟩ := by
      constructor <;>
        · simp only [processRouteStep, processRouteData]
          rw [if_pos hm]
          rcases hsp : splitOnChar '-' v with _ | ⟨a, _ | ⟨b, _ | ⟨c, rest⟩⟩⟩ <;>
            first
              | rfl
              | (exact absurd (hsp ▸ hlen) (by simp))
    constructor
    · refine List.mem_filterMap.mpr ⟨SrcVal.s v, hmem, ?_⟩
      rw [hboth.1]
      rfl
    · refine List.mem_filterMap.mpr ⟨SrcVal.s v, hmem, ?_⟩
      rw [hboth.2]
      rfl
  · intro v p r sd hsplit hnone
    have hm : '-' ∈ v := mem_of_splitOnChar_pair '-' v p r hsplit
    constructor <;>
      · simp only [processRouteStep, processRouteData]
        rw [if_pos hm, hsplit]
        dsimp only
        rcases hnone with hp | hr
        · rcases hri : pyInt r with _ | ri <;> rw [hp]
        · rcases hpp : pyInt p with _ | pn <;> rw [hr]

theorem malformedRouteFallback_w :
    (⟨"33-5-1".data, none, driverFor "33-5-1".data, none,
        serviceDayFor [⟨SrcVal.s "33-5-1".data, none⟩]
          (SrcVal.s "33-5-1".data)⟩ : RouteRow) ∈
      migrate_routes [⟨SrcVal.s "33-5-1".data, none⟩] ∧
    processRouteStep (SrcVal.s "ab-cd".data) "Monday".data = .skippedError :=
  ⟨(malformedRouteFallback.1 [⟨SrcVal.s "33-5-1".data, none⟩] "33-5-1".data
      (by decide) (by decide) (by decide)).1,
    (malformedRouteFallback.2 "ab-cd".data "ab".data "cd".data "Monday".data
      (by decide) (Or.inl (by decide))).1⟩

/-- C10: every routes row written by the route-migration step (in either
script) has ServiceDay among the five weekday names, because day_map has
exactly those five values and every missing, empty or unmapped day token
defaults to "Monday". -/
theorem serviceDayAlwaysWeekday (src : List LegacyRouteRow) :
    (∀ row ∈ migrate_routes src, row.serviceDay ∈ weekdayNames) ∧
    (∀ row ∈ routesMigrationData src, row.serviceDay ∈ weekdayNames) := by
  constructor
  · intro row hrow
    obtain ⟨v, hv, hf⟩ := List.mem_filterMap.mp hrow
    rw [processRouteStep_serviceDay v _ row hf]
    exact serviceDayFor_mem src v
  · intro row hrow
    obtain ⟨v, hv, hf⟩ := List.mem_filterMap.mp hrow
    rw [processRouteData_serviceDay v _ row hf]
    exact serviceDayFor_mem src v

theorem serviceDayAlwaysWeekday_w :
    (⟨"2502-33".data, some (natOfDigits "33".data), driverFor "33".data,
        some (natOfDigits "2502".data),
        serviceDayFor srcDemo (SrcVal.s "2502-33".data)⟩ : RouteRow).serviceDay ∈
      weekdayNames :=
  (serviceDayAlwaysWeekday srcDemo).1 _ (by decide)

/-- C7 counterexample: with a state whose customer_rental_items table is
empty, the guard of calculate_route_loads fires, no write happens — but
the function returns False, the same value as its error paths, and the
step driver therefore reports the step as failed, not as skipped. -/
theorem emptyBaseReportedFailed :
    reportStep true (calculate_route_loads noItemsState).2 = .failed ∧
    StepReport.failed ≠ StepReport.skipped ∧
    (calculate_route_loads noItemsState).1 = noItemsState := by
  refine ⟨rfl, by decide, rfl⟩

/-- C7 amended: when any of the three base tables is empty the step
performs no writes, but it returns False, which the step driver reports
as a failed step (indistinguishable from an error), not as skipped. -/
theorem emptyBaseGuardNoWrites (s : MasterState)
    (h : s.customerRentalItems = [] ∨ s.customers = [] ∨ s.routes = []) :
    (calculate_route_loads s).1 = s ∧ (calculate_route_loads s).2 = false ∧
    reportStep true (calculate_route_loads s).2 = .failed := by
  have hg : s.customerRentalItems.length = 0 ∨ s.customers.length = 0 ∨
      s.routes.length = 0 := by
    rcases h with h | h | h
    · exact Or.inl (by rw [h]; rfl)
    · exact Or.inr (Or.inl (by rw [h]; rfl))
    · exact Or.inr (Or.inr (by rw [h]; rfl))
  rw [calc_route_loads_neg s hg]
  exact ⟨rfl, rfl, rfl⟩

theorem emptyBaseGuardNoWrites_w :
    (calculate_route_loads noItemsState).1 = noItemsState ∧
    (calculate_route_loads noItemsState).2 = false ∧
    reportStep true (calculate_route_loads noItemsState).2 = .failed :=
  emptyBaseGuardNoWrites noItemsState (Or.inl rfl)

/-- C6 counterexample: invoking calculate_route_loads a second time
without clearing appends a second copy of every summary row — on
demoState the summary ends as two identical rows, i.e. the step does
double-count when invoked without clearing. -/
theorem summaryDoubleInsert :
    (calculate_route_loads
        (calculate_route_loads demoState).1).1.routeLoadSummary =
      [demoLoadRow, demoLoadRow] := by
  rfl

/-- C6 amended: the recomputation is deterministic — run twice against
unchanged base tables with the first run's rows cleared in between it
yields the same summary rows; but invoked a second time without
clearing it appends a full duplicate copy of the summary. -/
theorem summaryRecomputeDeterministic (s : MasterState)
    (h0 : s.routeLoadSummary = []) :
    (calculate_route_loads
        (clearSummary (calculate_route_loads s).1)).1.routeLoadSummary =
      (calculate_route_loads s).1.routeLoadSummary ∧
    (calculate_route_loads
        (calculate_route_loads s).1).1.routeLoadSummary =
      (calculate_route_loads s).1.routeLoadSummary ++
        (calculate_route_loads s).1.routeLoadSummary := by
  by_cases hg : s.customerRentalItems.length = 0 ∨ s.customers.length = 0 ∨
      s.routes.length = 0
  · have hcs : clearSummary s = s := by
      unfold clearSummary
      cases s with
      | mk a b c d =>
        simp only at h0
        rw [h0]
    rw [calc_route_loads_neg s hg]
    dsimp only
    rw [hcs, calc_route_loads_neg s hg]
    dsimp only
    rw [h0]
    exact ⟨rfl, rfl⟩
  · rw [calc_route_loads_pos s hg]
    dsimp only
    rw [h0, List.nil_append]
    have hclear :
        clearSummary { s with routeLoadSummary := routeLoadQuery s } =
          { s with routeLoadSummary := ([] : List LoadRow) } := rfl
    rw [hclear]
    rw [calc_route_loads_pos { s with routeLoadSummary := ([] : List LoadRow) } hg]
    rw [calc_route_loads_pos { s with routeLoadSummary := routeLoadQuery s } hg]
    dsimp only
    exact ⟨rfl, rfl⟩

theorem summaryRecomputeDeterministic_w :
    (calculate_route_loads
        (clearSummary (calculate_route_loads demoState).1)).1.routeLoadSummary =
      (calculate_route_loads demoState).1.routeLoadSummary ∧
    (calculate_route_loads
        (calculate_route_loads demoState).1).1.routeLoadSummary =
      (calculate_route_loads demoState).1.routeLoadSummary ++
        (calculate_route_loads demoState).1.routeLoadSummary :=
  summaryRecomputeDeterministic demoState rfl

/-- C5: starting from an empty summary table, after the route-load step
the summary has exactly one row per (RouteNumber, ServiceDay, item_id)
triple reachable by joining customer_rental_items to customers on
CustomerNumber and customers to routes on RouteNumber, and each row's
total_quantity is the sum of quantity_used over the rental rows of that
group (under the schema's uniqueness of CustomerNumber and
RouteNumber). -/
theorem routeLoadSummaryCorrect (s : MasterState)
    (hc : (s.customers.map (·.customerNumber)).Nodup)
    (hr : (s.routes.map (·.routeNumber)).Nodup)
    (h0 : s.routeLoadSummary = []) :
    ((calculate_route_loads s).1.routeLoadSummary.map loadKey).Nodup ∧
    (∀ k, k ∈ (calculate_route_loads s).1.routeLoadSummary.map loadKey ↔
      k ∈ (joinRows s).map keyOf) ∧
    (∀ row ∈ (calculate_route_loads s).1.routeLoadSummary,
      row.totalQuantity = groupSumSpec s (loadKey row)) := by
  by_cases hg : s.customerRentalItems.length = 0 ∨ s.customers.length = 0 ∨
      s.routes.length = 0
  · rw [calc_route_loads_neg s hg]
    dsimp only
    rw [h0, joinRows_empty_of_base_empty s hg]
    exact ⟨List.nodup_nil, fun k => by simp, fun row hrow => absurd hrow (by simp)⟩
  · rw [calc_route_loads_pos s hg]
    dsimp only
    rw [h0, List.nil_append]
    refine ⟨?_, ?_, ?_⟩
    · rw [loadKey_routeLoadQuery]
      exact List.nodup_dedup _
    · intro k
      rw [loadKey_routeLoadQuery]
      exact List.mem_dedup
    · intro row hrow
      unfold routeLoadQuery at hrow
      obtain ⟨k, hk, hEq⟩ := List.mem_map.mp hrow
      have hkey : loadKey row = k := by
        rw [← hEq]
        obtain ⟨a, b, c⟩ := k
        rfl
      rw [hkey, ← hEq]
      dsimp only
      unfold groupSumSpec
      exact join_filter_sum s hc hr k s.customerRentalItems

theorem routeLoadSummaryCorrect_w :
    ((calculate_route_loads demoState).1.routeLoadSummary.map loadKey).Nodup ∧
    ((("33".data, "Monday".data, (7 : Int)) ∈
        (calculate_route_loads demoState).1.routeLoadSummary.map loadKey ↔
      ("33".data, "Monday".data, (7 : Int)) ∈ (joinRows demoState).map keyOf)) :=
  ⟨(routeLoadSummaryCorrect demoState (by decide) (by decide) rfl).1,
    (routeLoadSummaryCorrect demoState (by decide) (by decide) rfl).2.1
      ("33".data, "Monday".data, (7 : Int))⟩

theorem rentalItemDerivedFields_w :
    (buildCRI danglingItem).deliveryDay =
      (match danglingItem.route with
       | some r => r.emod 5 + 1
       | none => 1) ∧
    (buildCRI danglingItem).deliveryFrequency = "Weekly".data ∧
    (buildCRI danglingItem).billingFrequency = "Monthly".data :=
  rentalItemDerivedFields danglingItem
